import Mathlib

/-!
Shallow embedding of the RAG engine in `app/rag_engine.py` (CourseBuddy AI),
together with proofs about its per-question pipeline, background
initialisation state machine, content loader and link formatting.

Python strings are modelled as Lean `String`; every Python string operation
used by the engine (`split`, `replace`, `strip`, `in`, `startswith`,
`str.isdigit`, `pathlib.PurePosixPath.name` / `.stem`) is implemented below by
structural recursion on the underlying character list, so that every concrete
computation reduces in the kernel.  External effectful components
(embedding model, Gemini model, FAISS store, filesystem, base64/PIL decoding)
are modelled as oracles bundled in a `World`; a Python operation that can
raise is modelled as returning `Except String α` with the exception message.
-/

namespace RagEngine

/-! ### Python string primitives (List Char level) -/

/-- Python `pat in s` for lists of characters: `pat` occurs as a contiguous
sublist.  Matches Python semantics: the empty pattern occurs in every string. -/
def listContains (pat : List Char) : List Char → Bool
  | [] => pat.isEmpty
  | c :: cs => pat.isPrefixOf (c :: cs) || listContains pat cs

/-- Fuel-driven worker for Python `str.split(sep)` with a non-empty separator:
scan left to right, cut at each non-overlapping occurrence of `sep`.
`fuel ≥ l.length` guarantees the scan completes (each step consumes at least
one character and one unit of fuel). -/
def splitFuel (sep : List Char) : Nat → List Char → List Char → List (List Char)
  | _, [], acc => [acc.reverse]
  | 0, l, acc => [acc.reverse ++ l]
  | fuel + 1, c :: cs, acc =>
    if sep.isPrefixOf (c :: cs) then
      acc.reverse :: splitFuel sep fuel (cs.drop (sep.length - 1)) []
    else
      splitFuel sep fuel cs (c :: acc)

/-- Fuel-driven worker for Python `s.replace(old, new)` with non-empty `old`:
replace every non-overlapping occurrence, scanning left to right. -/
def replFuel (pat rep : List Char) : Nat → List Char → List Char
  | _, [] => []
  | 0, l => l
  | fuel + 1, c :: cs =>
    if pat.isPrefixOf (c :: cs) then
      rep ++ replFuel pat rep fuel (cs.drop (pat.length - 1))
    else
      c :: replFuel pat rep fuel cs

/-! ### Python string primitives (String level) -/

/-- Python `sep in s`. -/
def pyContains (s pat : String) : Bool := listContains pat.data s.data

/-- Python `s.split(sep)` (non-empty separator; the engine only splits on
`"\n"`, `"/"` and `"**URL:**"`). -/
def pySplit (s sep : String) : List String :=
  (splitFuel sep.data s.data.length s.data []).map String.mk

/-- Python `s.replace(old, new)` (non-empty `old`; the engine only removes
the `"**URL:**"` marker). -/
def pyReplace (s pat rep : String) : String :=
  String.mk (replFuel pat.data rep.data s.data.length s.data)

/-- Python `s.strip()` restricted to ASCII whitespace. -/
def pyStrip (s : String) : String :=
  String.mk (((s.data.dropWhile Char.isWhitespace).reverse.dropWhile
      Char.isWhitespace).reverse)

/-- Python `s.startswith(pre)`. -/
def pyStartsWith (s pre : String) : Bool := pre.data.isPrefixOf s.data

/-- The remainder of `s` after a leading occurrence of `pre`
(`s` unchanged when `pre` is not a prefix).  Used only to state the
spec-side "remainder of the line" reading of URL extraction. -/
def pyDropPre (s pre : String) : String :=
  if pre.data.isPrefixOf s.data then String.mk (s.data.drop pre.data.length)
  else s

/-- Python `s.isdigit()` restricted to ASCII digits: non-empty and all digits. -/
def pyIsDigit (s : String) : Bool := !s.data.isEmpty && s.data.all Char.isDigit

/-- `pathlib.PurePosixPath(s).parts` minus root handling: split on `/`,
dropping empty components and `"."` components (pathlib removes both when
parsing). -/
def pathParts (s : String) : List String :=
  (pySplit s "/").filter (fun c => c ≠ "" && c ≠ ".")

/-- `pathlib.PurePosixPath(s).name`: the final path component
(empty for an empty or root path). -/
def pathName (s : String) : String := (pathParts s).getLastD ""

/-- `pathlib.PurePosixPath(s).stem`: `name` with its final suffix removed.
pathlib keeps the whole name when the last dot is the first character or the
last character of the name (`i = name.rfind('.')`, suffix split only when
`0 < i < len(name) - 1`). -/
def pathStem (s : String) : String :=
  let n := pathName s
  let cs := n.data
  if cs.contains '.' then
    let sfx := cs.reverse.takeWhile (fun c => c ≠ '.')
    let i := cs.length - 1 - sfx.length
    if 0 < i ∧ i < cs.length - 1 then String.mk (cs.take i) else n
  else n

/-! ### Data model -/

/-- `langchain.schema.Document` restricted to the fields the engine uses:
`page_content` plus the `source` and `filename` metadata keys. -/
structure Document where
  page_content : String
  source : String
  filename : String
deriving DecidableEq

/-- One `{url, text}` entry of the `links` list of an answer. -/
structure Link where
  url : String
  text : String
deriving DecidableEq

/-- The shape of the dictionary returned by `RAGEngine.answer_question`. -/
structure AnswerResult where
  answer : String
  links : List Link
deriving DecidableEq

/-- Opaque handle for the HuggingFace embedding model singleton. -/
structure EmbeddingModel where
  id : Nat
deriving DecidableEq

/-- Opaque handle for the Gemini model singleton. -/
structure GeminiModel where
  id : Nat
deriving DecidableEq

/-- Opaque handle for a decoded PIL image. -/
structure PILImage where
  id : Nat
deriving DecidableEq

/-- A FAISS vector store, identified by the chunk set it indexes. -/
structure VectorStore where
  docs : List Document
deriving DecidableEq

/-- One file found by `glob("*.md")` in the discourse-posts directory;
`content` is the result of reading it (`.error` when the read raises). -/
structure MdFile where
  name : String
  content : Except String String

/-- The configuration fields of `app/config.py` consumed by the engine
itself.  The path settings are consumed only by the filesystem oracles of
`World` and are therefore folded into those oracles. -/
structure Settings where
  NUM_RETRIEVED_DOCS : Nat
  CHUNK_SIZE : Nat
  CHUNK_OVERLAP : Nat
deriving DecidableEq

/-- The module-level globals of `app/rag_engine.py`. -/
structure Globals where
  embedding_model : Option EmbeddingModel
  gemini_model : Option GeminiModel
  vector_store : Option VectorStore
  initialization_complete : Bool
  initialization_error : Option String
deriving DecidableEq

/-- The globals at module import time: every singleton `None`,
`_initialization_complete = False`, `_initialization_error = None`. -/
def initGlobals : Globals :=
  { embedding_model := none
    gemini_model := none
    vector_store := none
    initialization_complete := false
    initialization_error := none }

/-- Oracle bundle for every external, effectful component the engine calls.
An operation that can raise in Python is modelled as `Except String α`
carrying `str(e)`. -/
structure World where
  /-- `HuggingFaceEmbeddings(...)` construction. -/
  embedding_model_init : Except String EmbeddingModel
  /-- `genai.configure` + `genai.GenerativeModel(...)` construction. -/
  gemini_model_init : Except String GeminiModel
  /-- Persisted index at `VECTOR_DB_PATH`: `none` when the path does not
  exist, `some (.error e)` when `FAISS.load_local` raises,
  `some (.ok vs)` when loading succeeds. -/
  persisted_store : Option (Except String VectorStore)
  /-- `Path(DISCOURSE_DATA_PATH).exists()`. -/
  dir_exists : Bool
  /-- The files returned by `glob("*.md")`, in iteration order. -/
  files : List MdFile
  /-- `RecursiveCharacterTextSplitter(chunk_size, chunk_overlap)
  .split_documents`. -/
  split_documents : Nat → Nat → List Document → List Document
  /-- `FAISS.from_documents` (embeds every chunk; may raise). -/
  build_store : List Document → Except String VectorStore
  /-- `mkdir(parents=True, exist_ok=True)` + `save_local` (may raise). -/
  save_result : Except String Unit
  /-- `base64.b64decode` + `Image.open` on an image payload (may raise). -/
  b64_decode : String → Except String PILImage
  /-- `vector_store.similarity_search(question, k)` (may raise). -/
  similarity_search : VectorStore → String → Nat → Except String (List Document)
  /-- `_gemini_model.generate_content(prompt[, image])` followed by the
  `response.text` accessor (either may raise). -/
  generate_content : String → Option PILImage → Except String String

/-! ### Module functions of `app/rag_engine.py` -/

/-- `get_embedding_model` (singleton pattern): reuse the global if set,
otherwise construct it, store it, and re-raise any construction failure. -/
def get_embedding_model (w : World) (g : Globals) :
    Except String (EmbeddingModel × Globals) :=
  match g.embedding_model with
  | some m => .ok (m, g)
  | none =>
    match w.embedding_model_init with
    | .ok m => .ok (m, { g with embedding_model := some m })
    | .error e => .error e

/-- `get_gemini_model` (singleton pattern). -/
def get_gemini_model (w : World) (g : Globals) :
    Except String (GeminiModel × Globals) :=
  match g.gemini_model with
  | some m => .ok (m, g)
  | none =>
    match w.gemini_model_init with
    | .ok m => .ok (m, { g with gemini_model := some m })
    | .error e => .error e

/-- `get_vector_store` (singleton pattern): reuse the global if set;
otherwise try to load the persisted store (a load failure is caught and the
global stays `None`); when the path does not exist the global stays `None`.
Never raises. -/
def get_vector_store (w : World) (g : Globals) :
    Option VectorStore × Globals :=
  match g.vector_store with
  | some vs => (some vs, g)
  | none =>
    match w.persisted_store with
    | some (.ok vs) => (some vs, { g with vector_store := some vs })
    | some (.error _) => (none, { g with vector_store := none })
    | none => (none, g)

/-- The URL-extraction scan of `_load_documents`:
`lines = content.split("\n")`, then for the first line containing
`"**URL:**"` take `line.replace("**URL:**", "").strip()`; `""` when no line
contains the marker. -/
def extract_url (content : String) : String :=
  match (pySplit content "\n").find? (fun line => pyContains line "**URL:**") with
  | some line => pyStrip (pyReplace line "**URL:**" "")
  | none => ""

/-- The per-file body of `_load_documents`: a read failure is logged and the
file skipped (`none`); otherwise the whole file text becomes `page_content`
with metadata `{source: extracted URL, filename}`. -/
def doc_of_file (f : MdFile) : Option Document :=
  match f.content with
  | .error _ => none
  | .ok content =>
    some { page_content := content, source := extract_url content,
           filename := f.name }

/-- `_load_documents`: empty when the discourse directory does not exist;
otherwise one `Document` per readable `*.md` file, in glob order, skipping
files whose read raises.  The outer try/except catches directory-level
failures, which the `dir_exists` oracle already covers. -/
def load_documents (w : World) : List Document :=
  if w.dir_exists then w.files.filterMap doc_of_file else []

/-- `initialize_in_background` (renamed to avoid a reserved token).
Returns the updated globals together with the store, if any, that was built
and persisted during this run.

The assignment `_vector_store = FAISS.from_documents(...)` in the Python
body has no covering `global` declaration (the `global` statement there
names only `_initialization_complete` and `_initialization_error`), so by
Python scoping it binds a function-local name: the module-level
`_vector_store` is NOT updated by the build branch, and the built store is
only written to disk by `save_local`.  The model reflects this: `g3` keeps
the `vector_store` field produced by `get_vector_store`, and the built store
appears only in the second component. -/
def init_in_background (w : World) (s : Settings) (g : Globals) :
    Globals × Option VectorStore :=
  match get_embedding_model w g with
  | .error e => ({ g with initialization_error := some e }, none)
  | .ok (_, g1) =>
    match get_gemini_model w g1 with
    | .error e => ({ g1 with initialization_error := some e }, none)
    | .ok (_, g2) =>
      let r := get_vector_store w g2
      let g3 := r.2
      match r.1 with
      | some _ => ({ g3 with initialization_complete := true }, none)
      | none =>
        let documents := load_documents w
        if documents.isEmpty then
          ({ g3 with initialization_complete := true }, none)
        else
          let splits := w.split_documents s.CHUNK_SIZE s.CHUNK_OVERLAP documents
          match w.build_store splits with
          | .error e => ({ g3 with initialization_error := some e }, none)
          | .ok built =>
            match w.save_result with
            | .error e => ({ g3 with initialization_error := some e }, none)
            | .ok _ => ({ g3 with initialization_complete := true }, some built)

/-- `RAGEngine.is_ready`: reads `_initialization_complete` only. -/
def is_ready (g : Globals) : Bool := g.initialization_complete

/-- The dictionary returned by `RAGEngine.get_initialization_status`
(`status` key plus optional `error` key). -/
structure StatusReport where
  status : String
  error : Option String
deriving DecidableEq

/-- `RAGEngine.get_initialization_status`.  The Python guard is
`if _initialization_error:`, i.e. truthiness: it takes the error branch only
when the captured message is a non-empty string. -/
def get_initialization_status (g : Globals) : StatusReport :=
  match g.initialization_error with
  | some e =>
    if e ≠ "" then { status := "error", error := some e }
    else if g.initialization_complete then { status := "ready", error := none }
    else { status := "initializing", error := none }
  | none =>
    if g.initialization_complete then { status := "ready", error := none }
    else { status := "initializing", error := none }

/-- `RAGEngine._get_discourse_post_title`: always returns the generic
non-empty title. -/
def get_discourse_post_title (post_id : String) : String :=
  "Discourse Post #" ++ post_id

/-- `RAGEngine._format_source_as_link_text`.  Every operation in the Python
body is total on `str` inputs, so the `except: return source` fallback is
unreachable in this model; the function is total by construction.
The nested early returns are rendered as conjunctions: `Discussion: {title}`
is returned exactly when `len(parts) >= 2` and the looked-up title is
truthy, etc. -/
def format_source_as_link_text (source : String) : String :=
  if pyContains source "course_content" then
    "Course Material: " ++ pathName source
  else if pyContains source "discourse_posts" ||
      pyContains source "onlinedegree.iitm.ac.in" then
    if pyContains source "onlinedegree.iitm.ac.in" then
      let parts := pySplit source "/"
      if 2 ≤ parts.length ∧ get_discourse_post_title (parts.getLastD "") ≠ "" then
        "Discussion: " ++ get_discourse_post_title (parts.getLastD "")
      else
        "Discussion Post: " ++ (pySplit source "/").getLastD ""
    else
      if pyIsDigit (pathStem source) ∧
          get_discourse_post_title (pathStem source) ≠ "" then
        get_discourse_post_title (pathStem source)
      else
        "Discourse Post: " ++ pathName source
  else
    pathName source

/-- `RAGEngine._create_prompt`: context-grounded prompt when `context` is
truthy (non-empty), general-knowledge prompt otherwise. -/
def create_prompt (question context : String) : String :=
  if context ≠ "" then
    "You are a virtual teaching assistant for a Technical Data Science (TDS) class at IIT Madras\x27 Online Degree in Data Science. \nUse the following context to answer the student\x27s question.\nIf the information is not in the context, just say that you don\x27t know but would be happy to help with other questions.\nDo not make up answers that are not supported by the context.\nProvide a clear, concise answer.\n\nCONTEXT:\n"
      ++ context ++ "\n\nSTUDENT QUESTION:\n" ++ question ++ "\n\nYOUR ANSWER:"
  else
    "You are a virtual teaching assistant for a Technical Data Science (TDS) class at IIT Madras\x27 Online Degree in Data Science.\nAnswer the student\x27s question based on your knowledge.\nIf you don\x27t know the answer, just say that you don\x27t know but would be happy to help with other questions.\nDo not make up answers.\nProvide a clear, concise answer.\n\nSTUDENT QUESTION:\n"
      ++ question ++ "\n\nYOUR ANSWER:"

/-- The graceful error answer built by the outer handler of
`answer_question`. -/
def gracefulErrorAnswer (e : String) : String :=
  "I\x27m sorry, I encountered an error while processing your question. Please try again or contact support if the issue persists. Error details: "
    ++ e

/-- The message of the exception raised when the engine is not ready. -/
def notReadyMsg : String :=
  "RAG engine is not yet initialized. Please try again later."

/-- One iteration of the `for doc in relevant_docs` loop of
`answer_question`: append the chunk text (plus a blank line) to the context
and, when the `source` metadata is truthy (non-empty), append a
`{url, text}` link. -/
def collect_step (acc : String × List Link) (d : Document) : String × List Link :=
  (acc.1 ++ d.page_content ++ "\n\n",
   if d.source ≠ "" then
     acc.2 ++ [{ url := d.source, text := format_source_as_link_text d.source }]
   else acc.2)

/-- The whole context/links accumulation loop of `answer_question`,
starting from an empty context and an empty links list. -/
def collect_context_links (docs : List Document) : String × List Link :=
  docs.foldl collect_step ("", [])

/-- The link entry a retrieved chunk contributes: `none` when its `source`
metadata is empty (falsy), otherwise the `{url, text}` pair with the derived
label. -/
def link_of_doc (d : Document) : Option Link :=
  if d.source = "" then none
  else some { url := d.source, text := format_source_as_link_text d.source }

/-- The image-decoding step of `answer_question` (step 2 of the
per-question flow): the payload is decoded only when truthy (a non-empty
string); a decode failure is caught by the inner handler, logged, and
leaves `image = None`. -/
def decoded_image (w : World) (image_data : Option String) : Option PILImage :=
  match image_data with
  | some d =>
    if d ≠ "" then
      match w.b64_decode d with
      | .ok img => some img
      | .error _ => none
    else none
  | none => none

/-- The retrieval step of `answer_question` (step 3): skipped entirely when
the module-level vector store is `None` (falsy); a `similarity_search`
failure is caught by the inner handler, logged, and leaves the retrieved
set empty. -/
def retrieved_docs (w : World) (s : Settings) (g : Globals)
    (question : String) : List Document :=
  match g.vector_store with
  | some vs =>
    match w.similarity_search vs question s.NUM_RETRIEVED_DOCS with
    | .ok docs => docs
    | .error _ => []
  | none => []

/-- `RAGEngine.answer_question`.  The only exception that escapes to the
caller is the explicit not-ready raise; the whole pipeline body sits inside
a catch-all `try`.  Inside it, image decoding and retrieval each have their
own inner handler (a failure is logged and the pipeline continues), and all
remaining operations except the model call are total, so the outer handler
is reached exactly when `generate_content` (or its `response.text`
accessor) raises — it then returns the graceful error answer with an empty
links list. -/
def answer_question (w : World) (s : Settings) (g : Globals)
    (question : String) (image_data : Option String) :
    Except String AnswerResult :=
  if !is_ready g then
    .error notReadyMsg
  else
    let cl := collect_context_links (retrieved_docs w s g question)
    match w.generate_content (create_prompt question cl.1)
        (decoded_image w image_data) with
    | .ok answer => .ok { answer := answer, links := cl.2 }
    | .error e => .ok { answer := gracefulErrorAnswer e, links := [] }

/-- The spec-side reading of the URL scan, transcribed from the spec's
words: "scan line-by-line for a metadata marker (`**URL:**`) and take the
remainder of that line, trimmed, as the source URL (empty string if
absent)".  `remainderAfter pat l` is the part of `l` after the first
occurrence of `pat` (`none` when `pat` does not occur). -/
def remainderAfter (pat : List Char) : List Char → Option (List Char)
  | [] => if pat.isEmpty then some [] else none
  | c :: cs =>
    if pat.isPrefixOf (c :: cs) then some ((c :: cs).drop pat.length)
    else remainderAfter pat cs

/-- Spec-side source URL of a file body: the trimmed remainder, after the
marker, of the first line containing the marker; empty when no line
contains it.  This definition follows the specification text and exists
only to be compared with the code-side `extract_url`. -/
def spec_source_url (content : String) : String :=
  match (pySplit content "\n").find? (fun line => pyContains line "**URL:**") with
  | some line =>
    match remainderAfter "**URL:**".data line.data with
    | some rest => pyStrip (String.mk rest)
    | none => ""
  | none => ""

/-! ### Process lifecycle model

`RAGEngine.__init__` starts exactly one background thread running
`initialize_in_background`; `answer_question`, `is_ready` and
`get_initialization_status` only read the module globals (the `global`
statement in `answer_question` covers `_embedding_model`, `_gemini_model`,
`_vector_store`, none of which it assigns).  A process history is therefore
a sequence of events containing at most one `initRun`. -/

/-- An observable event of the running engine process. -/
inductive EngineEvent where
  | initRun
  | query (question : String) (image_data : Option String)
  | health
deriving DecidableEq

/-- Effect of one event on the module globals: only the (single) background
initialisation run mutates them. -/
def step_globals (w : World) (s : Settings) (g : Globals) :
    EngineEvent → Globals
  | .initRun => (init_in_background w s g).1
  | .query _ _ => g
  | .health => g

/-- Run a sequence of events from a starting globals state. -/
def run_events (w : World) (s : Settings) : Globals → List EngineEvent → Globals
  | g, [] => g
  | g, e :: es => run_events w s (step_globals w s g e) es

/-- The spec-level `InitializationState`, read off the globals: the error
state whenever a message has been captured, else ready when the complete
flag is set, else initializing. -/
inductive InitState where
  | initializing
  | ready
  | error (msg : String)
deriving DecidableEq

/-- Abstraction of the globals to the spec-level state. -/
def state_of (g : Globals) : InitState :=
  match g.initialization_error with
  | some m => .error m
  | none => if g.initialization_complete then .ready else .initializing

/-- The health report the spec prescribes for each state. -/
def report_of : InitState → StatusReport
  | .initializing => { status := "initializing", error := none }
  | .ready => { status := "ready", error := none }
  | .error m => { status := "error", error := some m }

/-! ### Concrete instances used by witnesses and counterexamples -/

/-- A demo chunk whose source is a discussion URL. -/
def demoDoc : Document :=
  { page_content := "Python dicts are hash maps."
    source := "https://onlinedegree.iitm.ac.in/t/py/42"
    filename := "42.md" }

/-- A demo vector store holding the demo chunk. -/
def demoStore : VectorStore := { docs := [demoDoc] }

/-- A world in which every external component behaves: models construct,
a persisted store loads, search returns the stored chunks, generation
succeeds; base64 decoding fails (a malformed payload). -/
def wDemo : World :=
  { embedding_model_init := .ok { id := 0 }
    gemini_model_init := .ok { id := 0 }
    persisted_store := some (.ok demoStore)
    dir_exists := true
    files := []
    split_documents := fun _ _ ds => ds
    build_store := fun ds => .ok { docs := ds }
    save_result := .ok ()
    b64_decode := fun _ => .error "Invalid base64-encoded string"
    similarity_search := fun vs _ k => .ok (vs.docs.take k)
    generate_content := fun _ _ => .ok "Dictionaries map keys to values." }

/-- `wDemo` with a generation step that always raises. -/
def wFail : World :=
  { wDemo with generate_content := fun _ _ => .error "503 quota exceeded" }

/-- Globals after a successful warm-up that loaded the demo store. -/
def readyGlobals : Globals :=
  { embedding_model := some { id := 0 }
    gemini_model := some { id := 0 }
    vector_store := some demoStore
    initialization_complete := true
    initialization_error := none }

/-- Globals after a successful warm-up that left no store in memory. -/
def emptyReadyGlobals : Globals :=
  { initGlobals with initialization_complete := true }

/-- The default configuration values of `app/config.py`. -/
def demoSettings : Settings :=
  { NUM_RETRIEVED_DOCS := 3, CHUNK_SIZE := 1000, CHUNK_OVERLAP := 100 }

/-- A second demo chunk whose source is a course-content path. -/
def demoDoc2 : Document :=
  { page_content := "Week 1 notes."
    source := "course_content/week1.md"
    filename := "week1.md" }

/-- The file body of the spec's end-to-end scenario (claim about the
freshly built index). -/
def c3Body : String :=
  "**URL:** https://example.com/t/5/7\n\nPython dicts are hash maps."

/-- The end-to-end scenario world: no persisted index, a content directory
holding exactly one file with body `c3Body`, and every external component
succeeding. -/
def wScenario : World :=
  { embedding_model_init := .ok { id := 0 }
    gemini_model_init := .ok { id := 0 }
    persisted_store := none
    dir_exists := true
    files := [{ name := "post.md", content := .ok c3Body }]
    split_documents := fun _ _ ds => ds
    build_store := fun ds => .ok { docs := ds }
    save_result := .ok ()
    b64_decode := fun _ => .error "unused"
    similarity_search := fun vs _ k => .ok (vs.docs.take k)
    generate_content := fun _ _ => .ok "A Python dict is a hash map." }

/-- A world whose embedding-model construction raises an exception with an
empty message (`str(e) == ""`, e.g. `raise Exception()`). -/
def wEmptyErr : World :=
  { wDemo with embedding_model_init := .error "" }

/-- A content file whose marker line has text before the marker. -/
def w8 : World :=
  { wDemo with
    files := [{ name := "weird.md",
                content := .ok "prefix **URL:** https://a\nbody" }] }

/-- A content file in the format the preprocessing scripts produce: the
marker starts the line. -/
def mdGood : MdFile :=
  { name := "good.md", content := .ok "**URL:** https://x\nbody" }

/-- A world whose content directory holds exactly `mdGood`. -/
def w8good : World := { wDemo with files := [mdGood] }

/-- A content file whose read raises. -/
def badFile : MdFile := { name := "bad.md", content := .error "Permission denied" }

/-- A world whose content directory holds a failing file followed by a
readable one. -/
def wMixed : World := { wDemo with files := [badFile, mdGood] }

/-! ### Helper lemmas -/

lemma collect_foldl_snd (docs : List Document) :
    ∀ (s : String) (l : List Link),
      (docs.foldl collect_step (s, l)).2 = l ++ docs.filterMap link_of_doc := by
  induction docs with
  | nil => intro s l; simp
  | cons d ds ih =>
    intro s l
    simp only [List.foldl_cons, List.filterMap_cons]
    by_cases h : d.source = ""
    · simp [collect_step, link_of_doc, h, ih]
    · simp [collect_step, link_of_doc, h, ih]

lemma gracefulErrorAnswer_ne_empty (e : String) : gracefulErrorAnswer e ≠ "" := by
  intro h
  have := congrArg String.data h
  rw [gracefulErrorAnswer, String.data_append] at this
  simp at this

lemma pyStartsWith_append (a b p : String) (h : pyStartsWith a p = true) :
    pyStartsWith (a ++ b) p = true := by
  rw [pyStartsWith, List.isPrefixOf_iff_prefix] at h ⊢
  rw [String.data_append]
  exact h.trans (List.prefix_append a.data b.data)

lemma run_events_append (w : World) (s : Settings) (g : Globals)
    (l1 l2 : List EngineEvent) :
    run_events w s g (l1 ++ l2) = run_events w s (run_events w s g l1) l2 := by
  induction l1 generalizing g with
  | nil => rfl
  | cons e es ih => simp [run_events, ih]

lemma run_events_no_init (w : World) (s : Settings) (g : Globals)
    (evs : List EngineEvent) (h : evs.count .initRun = 0) :
    run_events w s g evs = g := by
  induction evs generalizing g with
  | nil => rfl
  | cons e es ih =>
    rw [List.count_cons] at h
    cases e with
    | initRun => simp at h
    | query q i =>
      simp only [run_events, step_globals]
      exact ih g (by omega)
    | health =>
      simp only [run_events, step_globals]
      exact ih g (by omega)

lemma replFuel_of_not_contains (pat : List Char) (l : List Char) :
    ∀ n, l.length ≤ n → listContains pat l = false → replFuel pat [] n l = l := by
  induction l with
  | nil => intro n _ _; cases n <;> rfl
  | cons c cs ih =>
    intro n hn hc
    rw [listContains, Bool.or_eq_false_iff] at hc
    cases n with
    | zero => simp at hn
    | succ n' =>
      rw [replFuel, if_neg (by simp [hc.1])]
      rw [ih n' (by simpa using hn) hc.2]

lemma replFuel_strip_marker (pat rest : List Char) (hp : pat ≠ []) :
    ∀ n, (pat ++ rest).length ≤ n → listContains pat rest = false →
      replFuel pat [] n (pat ++ rest) = rest := by
  intro n hn hc
  obtain ⟨p, ps, rfl⟩ : ∃ p ps, pat = p :: ps := by
    cases pat with
    | nil => exact absurd rfl hp
    | cons p ps => exact ⟨p, ps, rfl⟩
  cases n with
  | zero => simp at hn
  | succ n' =>
    have hpre : (p :: ps).isPrefixOf (p :: (ps ++ rest)) = true := by
      rw [List.isPrefixOf_iff_prefix, ← List.cons_append]
      exact List.prefix_append _ _
    rw [List.cons_append, replFuel, if_pos hpre]
    have hdrop : (ps ++ rest).drop ((p :: ps).length - 1) = rest := by
      simp
    rw [hdrop, List.nil_append]
    apply replFuel_of_not_contains _ _ n' _ hc
    simp only [List.length_append, List.length_cons] at hn
    omega

lemma get_embedding_model_fields (w : World) (g : Globals)
    (m : EmbeddingModel) (g' : Globals)
    (h : get_embedding_model w g = .ok (m, g')) :
    g'.initialization_error = g.initialization_error ∧
      g'.initialization_complete = g.initialization_complete := by
  unfold get_embedding_model at h
  cases hm : g.embedding_model with
  | some m0 => rw [hm] at h; cases h; exact ⟨rfl, rfl⟩
  | none =>
    rw [hm] at h
    cases hw : w.embedding_model_init with
    | ok m1 => rw [hw] at h; cases h; exact ⟨rfl, rfl⟩
    | error e => rw [hw] at h; cases h

lemma get_gemini_model_fields (w : World) (g : Globals)
    (m : GeminiModel) (g' : Globals)
    (h : get_gemini_model w g = .ok (m, g')) :
    g'.initialization_error = g.initialization_error ∧
      g'.initialization_complete = g.initialization_complete := by
  unfold get_gemini_model at h
  cases hm : g.gemini_model with
  | some m0 => rw [hm] at h; cases h; exact ⟨rfl, rfl⟩
  | none =>
    rw [hm] at h
    cases hw : w.gemini_model_init with
    | ok m1 => rw [hw] at h; cases h; exact ⟨rfl, rfl⟩
    | error e => rw [hw] at h; cases h

lemma get_vector_store_fields (w : World) (g : Globals) :
    (get_vector_store w g).2.initialization_error = g.initialization_error ∧
      (get_vector_store w g).2.initialization_complete = g.initialization_complete := by
  unfold get_vector_store
  cases g.vector_store with
  | some vs => exact ⟨rfl, rfl⟩
  | none =>
    cases w.persisted_store with
    | none => exact ⟨rfl, rfl⟩
    | some r => cases r <;> exact ⟨rfl, rfl⟩

lemma state_of_init_ne (w : World) (s : Settings) (g : Globals)
    (herr : g.initialization_error = none) :
    state_of (init_in_background w s g).1 ≠ .initializing := by
  unfold init_in_background
  cases h1 : get_embedding_model w g with
  | error e => simp [state_of]
  | ok p1 =>
    obtain ⟨m1, g1⟩ := p1
    have f1 := get_embedding_model_fields w g m1 g1 h1
    cases h2 : get_gemini_model w g1 with
    | error e => simp [h2, state_of]
    | ok p2 =>
      obtain ⟨m2, g2⟩ := p2
      have f2 := get_gemini_model_fields w g1 m2 g2 h2
      have f3 := get_vector_store_fields w g2
      have herr3 : (get_vector_store w g2).2.initialization_error = none := by
        rw [f3.1, f2.1, f1.1, herr]
      cases h3 : (get_vector_store w g2).1 with
      | some vs => simp [h2, h3, state_of, herr3]
      | none =>
        by_cases hd : load_documents w = []
        · simp [h2, h3, hd, state_of, herr3]
        · cases hb : w.build_store
              (w.split_documents s.CHUNK_SIZE s.CHUNK_OVERLAP (load_documents w)) with
          | error e => simp [h2, h3, hd, hb, state_of]
          | ok built =>
            cases hs : w.save_result with
            | error e => simp [h2, h3, hd, hb, hs, state_of]
            | ok u => simp [h2, h3, hd, hb, hs, state_of, herr3]

lemma answer_question_ready_eq (w : World) (s : Settings) (g : Globals)
    (question : String) (image_data : Option String)
    (hready : is_ready g = true) :
    answer_question w s g question image_data =
      match w.generate_content
          (create_prompt question
            (collect_context_links (retrieved_docs w s g question)).1)
          (decoded_image w image_data) with
      | .ok a =>
        .ok { answer := a,
              links := (collect_context_links (retrieved_docs w s g question)).2 }
      | .error e => .ok { answer := gracefulErrorAnswer e, links := [] } := by
  simp [answer_question, hready]

lemma answer_question_ex_ok (w : World) (s : Settings) (g : Globals)
    (question : String) (image_data : Option String)
    (hready : is_ready g = true) :
    ∃ r, answer_question w s g question image_data = .ok r := by
  rw [answer_question_ready_eq w s g question image_data hready]
  cases hgen : w.generate_content
      (create_prompt question
        (collect_context_links (retrieved_docs w s g question)).1)
      (decoded_image w image_data) with
  | ok a => exact ⟨_, rfl⟩
  | error e => exact ⟨_, rfl⟩

/-! ### Claim theorems -/

/-- C1 (counterexample): the claim as stated is false.  While ready, with a
malformed image payload (decode raises) but a working retrieval and
generation path, `answer_question` returns the generated answer — not a
text explaining that an error occurred — and its links list is non-empty,
even though a step of the pipeline (image decode) raised. -/
theorem c1_counterexample :
    is_ready readyGlobals = true ∧
    wDemo.b64_decode "%%%" = .error "Invalid base64-encoded string" ∧
    answer_question wDemo demoSettings readyGlobals "What is a dict?" (some "%%%") =
      .ok { answer := "Dictionaries map keys to values."
            links := [{ url := "https://onlinedegree.iitm.ac.in/t/py/42",
                        text := "Discussion: Discourse Post #42" }] } ∧
    ([{ url := "https://onlinedegree.iitm.ac.in/t/py/42",
        text := "Discussion: Discourse Post #42" }] : List Link) ≠ [] := by
  exact ⟨rfl, rfl, rfl, by decide⟩

/-- C1 (amended): invoked while ready, `answer_question` never propagates an
exception: it always returns an `AnswerResult`.  When the generation step
raises — the only per-question step whose exception escapes the per-step
handlers (image-decode and retrieval failures are absorbed in place and the
pipeline continues) — the result is the graceful answer that explains an
error occurred and contains the error detail, with an empty links list. -/
theorem c1_graceful_on_failure (w : World) (s : Settings) (g : Globals)
    (question : String) (image_data : Option String)
    (hready : is_ready g = true) :
    (∃ r, answer_question w s g question image_data = .ok r) ∧
    (∀ e, (∀ p i, w.generate_content p i = .error e) →
       answer_question w s g question image_data =
         .ok { answer := gracefulErrorAnswer e, links := [] } ∧
       ∃ a, gracefulErrorAnswer e = a ++ e) := by
  refine ⟨answer_question_ex_ok w s g question image_data hready, ?_⟩
  intro e hgen
  refine ⟨?_, ⟨_, rfl⟩⟩
  rw [answer_question_ready_eq w s g question image_data hready, hgen]

/-- C1 (witness): at a concrete ready state and a world whose generation
always raises, the graceful error result is produced. -/
theorem c1_graceful_on_failure_witness :
    (∃ r, answer_question wFail demoSettings readyGlobals "q" none = .ok r) ∧
    answer_question wFail demoSettings readyGlobals "q" none =
      .ok { answer := gracefulErrorAnswer "503 quota exceeded", links := [] } := by
  have h := c1_graceful_on_failure wFail demoSettings readyGlobals "q" none rfl
  exact ⟨h.1, (h.2 "503 quota exceeded" (fun p i => rfl)).1⟩

/-- C2: while the initialization state is not ready (still initializing or
in the error state), `answer_question` raises the not-ready exception
immediately — its result does not depend on any retrieval or generation
oracle — and while the state is ready it never signals not-ready: it
returns an `AnswerResult`.  The hypothesis rules out the unreachable
globals where both the complete flag and an error are set (the one-shot
initializer sets exactly one of them). -/
theorem c2_not_ready_gate (w : World) (s : Settings) (g : Globals)
    (question : String) (image_data : Option String)
    (hcons : g.initialization_complete = true → g.initialization_error = none) :
    (state_of g ≠ .ready →
       answer_question w s g question image_data = .error notReadyMsg) ∧
    (state_of g = .ready →
       ∃ r, answer_question w s g question image_data = .ok r) := by
  constructor
  · intro hne
    have hc : g.initialization_complete = false := by
      by_cases hc : g.initialization_complete
      · exact absurd (by simp [state_of, hcons hc, hc]) hne
      · simpa using hc
    simp [answer_question, is_ready, hc, notReadyMsg]
  · intro hr
    have herr : g.initialization_error = none := by
      cases h : g.initialization_error with
      | none => rfl
      | some m => simp [state_of, h] at hr
    have hc : is_ready g = true := by
      by_cases hc : g.initialization_complete
      · simpa [is_ready] using hc
      · simp [state_of, herr, hc] at hr
    exact answer_question_ex_ok w s g question image_data hc

/-- C2 (witness): at the fresh globals the not-ready exception is raised;
at a ready globals an `AnswerResult` is returned. -/
theorem c2_not_ready_gate_witness :
    answer_question wDemo demoSettings initGlobals "q" none = .error notReadyMsg ∧
    ∃ r, answer_question wDemo demoSettings readyGlobals "q" none = .ok r := by
  refine ⟨?_, ?_⟩
  · exact (c2_not_ready_gate wDemo demoSettings initGlobals "q" none
      (by intro h; simp [initGlobals] at h)).1 (by decide)
  · exact (c2_not_ready_gate wDemo demoSettings readyGlobals "q" none
      (fun _ => rfl)).2 (by decide)

/-- C3 (code bug): in the spec's end-to-end scenario (no persisted index,
one content file with body `c3Body`), warm-up completes (state ready) and a
new index is indeed built from the loaded document and persisted (second
component) — but the assignment `_vector_store = FAISS.from_documents(...)`
in `initialize_in_background` creates a function-local binding (no `global`
declaration covers it), so the module-level store remains `None`: the
question asked after warm-up is answered with an empty links list instead
of the claimed single `{url, text}` entry.  The final conjunct shows that
with the built store actually assigned to the global, the very same call
returns exactly the claimed link. -/
theorem c3_scenario_code_bug :
    (init_in_background wScenario demoSettings initGlobals).1.initialization_complete
        = true ∧
    (init_in_background wScenario demoSettings initGlobals).2 =
      some { docs := [{ page_content := c3Body,
                        source := "https://example.com/t/5/7",
                        filename := "post.md" }] } ∧
    (init_in_background wScenario demoSettings initGlobals).1.vector_store = none ∧
    answer_question wScenario demoSettings
        (init_in_background wScenario demoSettings initGlobals).1
        "What is a Python dict?" none =
      .ok { answer := "A Python dict is a hash map.", links := [] } ∧
    answer_question wScenario demoSettings
        { (init_in_background wScenario demoSettings initGlobals).1 with
          vector_store := (init_in_background wScenario demoSettings initGlobals).2 }
        "What is a Python dict?" none =
      .ok { answer := "A Python dict is a hash map.",
            links := [{ url := "https://example.com/t/5/7", text := "7" }] } := by
  exact ⟨rfl, rfl, rfl, rfl, rfl⟩

/-- C4: while ready with a missing index (module store `None`), or with
every search on the held index returning nothing or raising,
`answer_question` proceeds with an empty retrieved set and returns an
`AnswerResult` with a non-empty answer string and an empty links list, with
no exception propagating.  (The generated text is whatever the external
model returns; the non-emptiness of a successful generation is a hypothesis
on that oracle, and the graceful error answer is non-empty by
construction.) -/
theorem c4_degrades_without_index (w : World) (s : Settings) (g : Globals)
    (question : String) (image_data : Option String)
    (hready : is_ready g = true)
    (hret : ∀ vs, g.vector_store = some vs →
       w.similarity_search vs question s.NUM_RETRIEVED_DOCS = .ok [] ∨
       ∃ e, w.similarity_search vs question s.NUM_RETRIEVED_DOCS = .error e)
    (hgen : ∀ p i a, w.generate_content p i = .ok a → a ≠ "") :
    ∃ r, answer_question w s g question image_data = .ok r ∧
      r.links = [] ∧ r.answer ≠ "" := by
  have hdocs : retrieved_docs w s g question = [] := by
    unfold retrieved_docs
    cases hvs : g.vector_store with
    | none => rfl
    | some vs => rcases hret vs hvs with h | ⟨e, h⟩ <;> simp [h]
  rw [answer_question_ready_eq w s g question image_data hready, hdocs]
  cases hg : w.generate_content
      (create_prompt question (collect_context_links []).1)
      (decoded_image w image_data) with
  | ok a => exact ⟨_, rfl, rfl, hgen _ _ _ hg⟩
  | error e => exact ⟨_, rfl, rfl, gracefulErrorAnswer_ne_empty e⟩

/-- C4 (witness): at a ready state holding no store, the call returns a
non-empty answer and no links. -/
theorem c4_degrades_without_index_witness :
    ∃ r, answer_question wDemo demoSettings emptyReadyGlobals "q" none = .ok r ∧
      r.links = [] ∧ r.answer ≠ "" := by
  refine c4_degrades_without_index wDemo demoSettings emptyReadyGlobals "q" none
    rfl (fun vs h => ?_) (fun p i a h => ?_)
  · simp [emptyReadyGlobals, initGlobals] at h
  · simp only [wDemo] at h
    cases h
    decide

/-- C5: the links list of a result is exactly one `{url, text}` entry per
retrieved chunk with a non-empty source, in retrieval order, duplicates
retained, empty-source chunks contributing nothing; in particular retrieved
sources `[A, A, B]` yield `[label(A), label(A), label(B)]`. -/
theorem c5_links_preserve_order (docs : List Document) :
    (collect_context_links docs).2 = docs.filterMap link_of_doc ∧
    (∀ dA dB : Document, dA.source ≠ "" → dB.source ≠ "" →
       (collect_context_links [dA, dA, dB]).2 =
         [{ url := dA.source, text := format_source_as_link_text dA.source },
          { url := dA.source, text := format_source_as_link_text dA.source },
          { url := dB.source, text := format_source_as_link_text dB.source }]) := by
  constructor
  · simpa using collect_foldl_snd docs "" []
  · intro dA dB hA hB
    simp [collect_context_links, collect_step, hA, hB]

/-- C5 (witness): two concrete chunks with sources `[A, A, B]` produce the
three labels in order. -/
theorem c5_links_preserve_order_witness :
    (collect_context_links [demoDoc, demoDoc, demoDoc2]).2 =
      [{ url := demoDoc.source, text := format_source_as_link_text demoDoc.source },
       { url := demoDoc.source, text := format_source_as_link_text demoDoc.source },
       { url := demoDoc2.source, text := format_source_as_link_text demoDoc2.source }] :=
  (c5_links_preserve_order []).2 demoDoc demoDoc2 (by decide) (by decide)

/-- C6: while ready, a truthy image payload whose base64 decode raises is
caught and treated exactly as if no image were supplied — the call equals
the image-less call, so generation is invoked with the text prompt alone —
and a normal `AnswerResult` is returned with no exception propagating. -/
theorem c6_malformed_image_ignored (w : World) (s : Settings) (g : Globals)
    (question d e : String)
    (hready : is_ready g = true) (hd : d ≠ "")
    (hdec : w.b64_decode d = .error e) :
    answer_question w s g question (some d) =
      answer_question w s g question none ∧
    ∃ r, answer_question w s g question (some d) = .ok r := by
  have himg : decoded_image w (some d) = decoded_image w none := by
    simp [decoded_image, hd, hdec]
  constructor
  · rw [answer_question_ready_eq w s g question (some d) hready,
      answer_question_ready_eq w s g question none hready, himg]
  · exact answer_question_ex_ok w s g question (some d) hready

/-- C6 (witness): with the demo world's failing decoder, a malformed
payload gives the same result as no payload, and an `AnswerResult`. -/
theorem c6_malformed_image_ignored_witness :
    answer_question wDemo demoSettings readyGlobals "q" (some "%%%") =
      answer_question wDemo demoSettings readyGlobals "q" none ∧
    ∃ r, answer_question wDemo demoSettings readyGlobals "q" (some "%%%") = .ok r :=
  c6_malformed_image_ignored wDemo demoSettings readyGlobals "q" "%%%"
    "Invalid base64-encoded string" rfl (by decide) rfl

/-- C7 (counterexample): the claim's "status reported to the health path is
exactly the current state" fails when the captured error message is the
empty string (`str(e) == ""`): the state is `error("")`, but the guard
`if _initialization_error:` is falsy for `""`, so the health path reports
`initializing` forever. -/
theorem c7_counterexample :
    state_of (init_in_background wEmptyErr demoSettings initGlobals).1 = .error "" ∧
    get_initialization_status (init_in_background wEmptyErr demoSettings initGlobals).1 =
      { status := "initializing", error := none } ∧
    report_of (.error "") = { status := "error", error := some "" } ∧
    ({ status := "initializing", error := none } : StatusReport) ≠
      { status := "error", error := some "" } := by
  exact ⟨rfl, rfl, rfl, by decide⟩

/-- C7 (amended): the background initialisation takes exactly one
transition out of `initializing` — the state after the single run is never
`initializing` (hence ready or error) — and the state is terminal: along
any event history from the fresh globals containing at most one
initialisation run (the engine starts exactly one), once the state has left
`initializing` the globals never change again.  The health path reports
exactly the current state whenever the captured error message, if any, is
non-empty; with an empty captured message the report is `initializing`
(Python truthiness of the error string). -/
theorem c7_state_machine :
    (∀ (w : World) (s : Settings),
       state_of (init_in_background w s initGlobals).1 ≠ .initializing) ∧
    (∀ (w : World) (s : Settings) (evs1 evs2 : List EngineEvent),
       (evs1 ++ evs2).count .initRun ≤ 1 →
       state_of (run_events w s initGlobals evs1) ≠ .initializing →
       run_events w s initGlobals (evs1 ++ evs2) =
         run_events w s initGlobals evs1) ∧
    (∀ g : Globals, (∀ m, g.initialization_error = some m → m ≠ "") →
       get_initialization_status g = report_of (state_of g)) := by
  refine ⟨?_, ?_, ?_⟩
  · intro w s
    exact state_of_init_ne w s initGlobals rfl
  · intro w s evs1 evs2 hcount hne
    rw [run_events_append]
    rw [List.count_append] at hcount
    by_cases h1 : evs1.count .initRun = 0
    · exfalso
      rw [run_events_no_init w s initGlobals evs1 h1] at hne
      exact hne rfl
    · exact run_events_no_init w s _ evs2 (by omega)
  · intro g hmsg
    cases herr : g.initialization_error with
    | some m =>
      have hm := hmsg m herr
      simp [get_initialization_status, herr, hm, state_of, report_of]
    | none =>
      by_cases hc : g.initialization_complete <;>
        simp [get_initialization_status, herr, hc, state_of, report_of]

/-- C7 (witness): a concrete successful run leaves `initializing`; a later
health query changes nothing; the ready globals report exactly their
state. -/
theorem c7_state_machine_witness :
    state_of (init_in_background wDemo demoSettings initGlobals).1 ≠ .initializing ∧
    run_events wDemo demoSettings initGlobals ([.initRun] ++ [.health]) =
      run_events wDemo demoSettings initGlobals [.initRun] ∧
    get_initialization_status readyGlobals = report_of (state_of readyGlobals) := by
  refine ⟨c7_state_machine.1 wDemo demoSettings,
    c7_state_machine.2.1 wDemo demoSettings [.initRun] [.health] (by decide)
      (by decide),
    c7_state_machine.2.2 readyGlobals (fun m h => ?_)⟩
  simp [readyGlobals] at h

/-- C8 (counterexample): the claim as stated is false.  The code computes
`line.replace("**URL:**", "").strip()`, which keeps any text before the
marker (and removes every occurrence of the marker), while the claim's
"remainder of that line, trimmed" drops everything up to the marker.  On a
file whose marker line is `"prefix **URL:** https://a"` the loader stores
source `"prefix  https://a"`, whereas the trimmed remainder is
`"https://a"`. -/
theorem c8_counterexample :
    load_documents w8 =
      [{ page_content := "prefix **URL:** https://a\nbody",
         source := "prefix  https://a", filename := "weird.md" }] ∧
    spec_source_url "prefix **URL:** https://a\nbody" = "https://a" ∧
    ("prefix  https://a" : String) ≠ "https://a" := by
  exact ⟨rfl, rfl, by decide⟩

/-- C8 (amended): for every readable file the loader emits a document whose
content is the full file text, whose filename is the file's name, and whose
source is the first `**URL:**`-containing line with every occurrence of the
marker removed and the result trimmed — which coincides with the claim's
trimmed remainder after the marker whenever that line starts with the
marker and contains no further occurrence — and the empty string when no
line contains the marker. -/
theorem c8_url_extraction (w : World) (f : MdFile) (c : String)
    (hdir : w.dir_exists = true) (hc : f.content = .ok c) :
    (f ∈ w.files →
       ({ page_content := c, source := extract_url c, filename := f.name } :
         Document) ∈ load_documents w) ∧
    (∀ line,
       (pySplit c "\n").find? (fun l => pyContains l "**URL:**") = some line →
       pyStartsWith line "**URL:**" = true →
       pyContains (pyDropPre line "**URL:**") "**URL:**" = false →
       extract_url c = pyStrip (pyDropPre line "**URL:**")) ∧
    ((pySplit c "\n").find? (fun l => pyContains l "**URL:**") = none →
       extract_url c = "") := by
  refine ⟨?_, ?_, ?_⟩
  · intro hmem
    rw [load_documents, if_pos hdir]
    exact List.mem_filterMap.mpr ⟨f, hmem, by rw [doc_of_file, hc]⟩
  · intro line hfind hpre hno
    simp only [extract_url, hfind]
    have hpre' : ("**URL:**" : String).data <+: line.data := by
      rw [← List.isPrefixOf_iff_prefix]
      exact hpre
    obtain ⟨rest, hrest⟩ := hpre'
    have hdp : pyDropPre line "**URL:**" = String.mk rest := by
      unfold pyDropPre
      rw [if_pos (show ("**URL:**" : String).data.isPrefixOf line.data = true
        from hpre)]
      congr 1
      rw [← hrest]
      simp
    rw [hdp] at hno ⊢
    have hfuel : pyReplace line "**URL:**" "" = String.mk rest := by
      unfold pyReplace
      congr 1
      rw [← hrest]
      exact replFuel_strip_marker _ rest (by decide) _ le_rfl hno
    rw [hfuel]
  · intro hnone
    simp only [extract_url, hnone]

/-- C8 (witness): on a file whose marker line starts with the marker, the
loader emits the document and the code-side extraction equals the trimmed
remainder after the marker. -/
theorem c8_url_extraction_witness :
    ({ page_content := "**URL:** https://x\nbody",
       source := extract_url "**URL:** https://x\nbody",
       filename := "good.md" } : Document) ∈ load_documents w8good ∧
    extract_url "**URL:** https://x\nbody" =
      pyStrip (pyDropPre "**URL:** https://x" "**URL:**") := by
  have h := c8_url_extraction w8good mdGood "**URL:** https://x\nbody" rfl rfl
  exact ⟨h.1 (List.mem_singleton.mpr rfl),
    h.2.1 "**URL:** https://x" (by decide) (by decide) (by decide)⟩

/-- C9: the loader returns the empty sequence, without raising, when the
content directory does not exist, and a file whose read fails is skipped
while every other file is still loaded: removing a failing file from the
directory does not change the loader's output, so a per-file failure never
aborts the batch (the loader is a total function). -/
theorem c9_loader_resilient (w : World) :
    (w.dir_exists = false → load_documents w = []) ∧
    (∀ pre f suf e, w.files = pre ++ f :: suf → f.content = .error e →
       load_documents w = load_documents { w with files := pre ++ suf }) := by
  constructor
  · intro h
    simp [load_documents, h]
  · intro pre f suf e hfiles hf
    by_cases hd : w.dir_exists
    · have hnone : doc_of_file f = none := by rw [doc_of_file, hf]
      simp [load_documents, hd, hfiles, List.filterMap_append,
        List.filterMap_cons, hnone]
    · simp [load_documents, hd]

/-- C9 (witness): a missing directory yields no documents; dropping the
concrete failing file from a two-file directory leaves the output
unchanged. -/
theorem c9_loader_resilient_witness :
    load_documents { wDemo with dir_exists := false } = [] ∧
    load_documents wMixed = load_documents { wMixed with files := [mdGood] } :=
  ⟨(c9_loader_resilient { wDemo with dir_exists := false }).1 rfl,
   (c9_loader_resilient wMixed).2 [] badFile [mdGood] "Permission denied" rfl rfl⟩

/-- C10 (counterexample): the claim's "a source containing
`onlinedegree.iitm.ac.in` yields a Discussion label" is false when the
source also contains `course_content`, because that branch is checked
first: the label is a Course Material label with no "Discussion" in it. -/
theorem c10_counterexample :
    pyContains "course_content/onlinedegree.iitm.ac.in" "onlinedegree.iitm.ac.in"
        = true ∧
    format_source_as_link_text "course_content/onlinedegree.iitm.ac.in" =
      "Course Material: onlinedegree.iitm.ac.in" ∧
    pyContains "Course Material: onlinedegree.iitm.ac.in" "Discussion" = false := by
  exact ⟨by decide, rfl, by decide⟩

/-- C10 (amended): deriving the link label is total by construction (every
operation of the Python body is total on strings, so the catch-all fallback
to the raw source is unreachable); a source containing `course_content`
yields `Course Material:` followed by the path's final component, and a
source containing `onlinedegree.iitm.ac.in` but not `course_content` yields
a label starting with "Discussion". -/
theorem c10_link_label_total (source : String) :
    (pyContains source "course_content" = true →
       format_source_as_link_text source =
         "Course Material: " ++ pathName source) ∧
    (pyContains source "onlinedegree.iitm.ac.in" = true →
     pyContains source "course_content" = false →
       pyStartsWith (format_source_as_link_text source) "Discussion" = true) := by
  constructor
  · intro h
    simp [format_source_as_link_text, h]
  · intro h1 h2
    simp only [format_source_as_link_text, h1, h2, Bool.or_true, if_true,
      Bool.false_eq_true, if_false]
    split
    · exact pyStartsWith_append "Discussion: " _ "Discussion" (by decide)
    · exact pyStartsWith_append "Discussion Post: " _ "Discussion" (by decide)

/-- C10 (witness): a course-content source gets the Course Material label;
a discussion URL gets a label starting with "Discussion". -/
theorem c10_link_label_total_witness :
    format_source_as_link_text "course_content/notes.pdf" =
      "Course Material: " ++ pathName "course_content/notes.pdf" ∧
    pyStartsWith
      (format_source_as_link_text "https://onlinedegree.iitm.ac.in/t/q/42")
      "Discussion" = true :=
  ⟨(c10_link_label_total "course_content/notes.pdf").1 (by decide),
   (c10_link_label_total "https://onlinedegree.iitm.ac.in/t/q/42").2
     (by decide) (by decide)⟩

end RagEngine
